import Mathlib

/-!
Verification development for the Alfred MCP server (TypeScript repository
`fastmcp-me/alfred-mcp`).  The repository is a protocol adapter: it wraps the
Alfred REST API (skills / connections / executions / API keys) in MCP tools.

This file shallowly embeds the parts of the source that the verified
properties are about:

* `src/client.ts` — the `AlfredClient` class: the generic `request` method
  (URL/headers/body construction, timeout/abort handling, JSON-envelope
  normalization) and the per-resource convenience methods and their query
  string construction.
* `src/tools/skills.ts`, `src/tools/connections.ts`,
  `src/tools/executions.ts`, `src/tools/auth.ts` — the 20 registered MCP
  tool handlers, embedded as total functions from the outcome of their
  single client call to a structured tool result, with the `try`/`catch`
  boundary made explicit via `Except`.

Conventions of the embedding:

* JavaScript strings are Lean `String`, JS numbers are Lean `Int`
  (no verified property involves non-integral arithmetic), JS booleans are
  `Bool`.  Optional / possibly-`undefined` values are `Option`.
* JavaScript truthiness (`a || b`, conditional interpolation) is modelled
  explicitly: `none` and `some ""` are falsy for optional strings, `0` is
  falsy for numbers.
* `fetch` together with the `AbortController` + `setTimeout` timer of
  `request` is modelled by a `FetchEvent`: either a response arriving at a
  given time, a network-level failure, or no response at all.  Following the
  platform semantics of `AbortController`, the fetch promise rejects with an
  `AbortError` exactly when the abort timer fires before the response
  arrives (i.e. no response within `timeout` milliseconds).
* JSON serialization of outbound bodies and percent-encoding of query
  values are not string-modelled; outbound bodies and query parameters are
  kept as structured values (the verified properties are about which fields
  and parameters are present, not about byte-level encoding).
* `JSON.stringify` of result payloads is likewise kept structural (an
  `OutVal` tree mirroring the object literals in the source); the two auth
  tools that build plain-text templates (`alfred_create_api_key`,
  `alfred_list_api_keys`) are modelled down to the exact string, since the
  secret-exposure property is about their text.
-/

/-! ## JavaScript semantics helpers -/

/-- JS `a || b` for an optional string `a` and a string default `b`:
`undefined` and `""` are falsy. -/
def jsOrStr (a : Option String) (b : String) : String :=
  match a with
  | some s => if s = "" then b else s
  | none => b

/-- JS `a || b` where both sides are optional strings (the result may still
be `undefined`, e.g. `response.error || response.message`). -/
def jsOrOpt (a b : Option String) : Option String :=
  match a with
  | some s => if s = "" then b else some s
  | none => b

/-- JS template-literal rendering of a possibly-`undefined` string:
`undefined` prints as `"undefined"`. -/
def jsTemplate (o : Option String) : String :=
  match o with
  | some s => s
  | none => "undefined"

/-- JS `a || b` for numbers: `0` is falsy. -/
def jsOrInt (a : Int) (b : Int) : Int :=
  if a = 0 then b else a

/-- JS `a || b` for an optional number and a number default. -/
def jsOrIntOpt (a : Option Int) (b : Int) : Int :=
  match a with
  | some n => if n = 0 then b else n
  | none => b

/-- JS `String(b)` for a boolean. -/
def jsBoolStr (b : Bool) : String :=
  if b then "true" else "false"

/-- JS `String(n)` for a number (integral case). -/
def jsIntStr (n : Int) : String :=
  toString n

/-- JS truthiness test for an optional string (`undefined` and `""` falsy). -/
def jsTruthyStr (o : Option String) : Bool :=
  match o with
  | some s => s ≠ ""
  | none => false

/-! ## Data model (src/types.ts) -/

/-- JS `any`-typed values the adapter never interprets (`triggerConfig`,
connection `config` entries, execution `input`/`trace`, ...), modelled as an
uninterpreted string payload. -/
abbrev JsAny := String

/-- Pagination metadata of list responses (`PaginationMeta` in types.ts). -/
structure PaginationMeta where
  total : Int
  page : Int
  limit : Int
  totalPages : Int
  hasMore : Bool
  sortBy : Option String := none
  sortOrder : Option String := none
deriving DecidableEq, Repr

/-- The uniform response envelope (`AlfredApiResponse<T>` in types.ts). -/
structure AlfredApiResponse (T : Type) where
  success : Bool
  data : Option T := none
  error : Option String := none
  message : Option String := none
  meta : Option PaginationMeta := none
deriving DecidableEq, Repr

/-- One execution step of a skill (`SkillStep` in types.ts). -/
structure SkillStep where
  id : Int
  prompt : String
  guidance : String
  allowedTools : List String
  connectionNames : Option (List String) := none
deriving DecidableEq, Repr

/-- A stored automation workflow (`Skill` in types.ts). -/
structure Skill where
  id : String
  templateId : Option String := none
  name : String
  description : Option String := none
  triggerType : String
  triggerConfig : Option JsAny := none
  steps : List SkillStep
  connectionNames : List String
  isSystem : Bool
  isActive : Bool
  runCount : Int
  lastRunAt : Option String := none
  composioUserId : Option String := none
  createdAt : String
  updatedAt : String
deriving DecidableEq, Repr

/-- Stored integration credentials (`Connection` in types.ts). -/
structure Connection where
  id : String
  name : String
  type : String
  config : JsAny
  tools : List String
  isActive : Bool
  lastUsedAt : Option String := none
  source : String
  composioAccountId : Option String := none
  composioToolkit : Option String := none
  authStatus : String
  createdAt : String
  updatedAt : String
deriving DecidableEq, Repr

/-- One run record of a skill (`Execution` in types.ts). -/
structure Execution where
  id : String
  skillId : String
  status : String
  trigger : String
  input : Option JsAny := none
  output : Option String := none
  trace : Option JsAny := none
  error : Option String := none
  startedAt : String
  completedAt : Option String := none
  durationMs : Option Int := none
  tokenCount : Option Int := none
  costUsd : Option String := none
  reportedToCore : Bool
deriving DecidableEq, Repr

/-- Aggregate overview block of `ExecutionStats` (types.ts). -/
structure ExecutionStatsOverview where
  total : Int
  successful : Int
  failed : Int
  running : Int
  successRate : Int
  totalCostUsd : String
  averageDurationMs : Option Int := none
deriving DecidableEq, Repr

/-- Per-skill breakdown entry of `ExecutionStats` (types.ts). -/
structure ExecutionStatsBySkill where
  skillId : String
  skillName : String
  count : Int
  successCount : Int
  avgDurationMs : Int
  totalCostUsd : String
deriving DecidableEq, Repr

/-- Per-day breakdown entry of `ExecutionStats` (types.ts). -/
structure ExecutionStatsByDay where
  date : String
  count : Int
  successful : Int
  failed : Int
deriving DecidableEq, Repr

/-- Execution statistics (`ExecutionStats` in types.ts). -/
structure ExecutionStats where
  overview : ExecutionStatsOverview
  bySkill : List ExecutionStatsBySkill
  byDay : List ExecutionStatsByDay
deriving DecidableEq, Repr

/-- API key metadata; the full secret value is not part of this entity
(`ApiKey` in types.ts). -/
structure ApiKey where
  id : String
  name : String
  keyPrefix : String
  description : Option String := none
  isActive : Bool
  lastUsedAt : Option String := none
  expiresAt : Option String := none
  createdAt : String
  updatedAt : String
deriving DecidableEq, Repr

/-- Creation response: ApiKey fields plus the full secret `key`
(`CreateApiKeyResponse` in types.ts). -/
structure CreateApiKeyResponse where
  id : String
  key : String
  name : String
  keyPrefix : String
  description : Option String := none
  expiresAt : Option String := none
  isActive : Bool
  createdAt : String
  message : Option String := none
deriving DecidableEq, Repr

/-! ## Remote API client (src/client.ts) -/

/-- Client configuration (`AlfredClientConfig` in client.ts): `timeout` is in
milliseconds. -/
structure AlfredClientConfig where
  apiKey : String
  baseUrl : String
  timeout : Nat
deriving DecidableEq, Repr

/-- JavaScript exceptions the `request` method can observe or throw,
tagged with the `name` the `catch` clause inspects. -/
inductive JsError where
  /-- A plain `new Error(msg)` (name `"Error"`), as thrown for non-2xx
  statuses and for the timeout conversion. -/
  | error (msg : String)
  /-- The rejection of the fetch promise when the abort timer fires
  (name `"AbortError"`). -/
  | abortError
  /-- A failure of `response.json()` on a body that is not valid JSON
  (name `"SyntaxError"`). -/
  | syntaxError (msg : String)
  /-- A network-level failure of `fetch` itself: DNS, connection refused,
  TLS (name `"FetchError"`). -/
  | fetchError (msg : String)
deriving DecidableEq, Repr

/-- The `name` property the `catch` clause of `request` branches on. -/
def JsError.name : JsError → String
  | .error _ => "Error"
  | .abortError => "AbortError"
  | .syntaxError _ => "SyntaxError"
  | .fetchError _ => "FetchError"

/-- The `message` property of a JS error. -/
def JsError.message : JsError → String
  | .error m => m
  | .abortError => "The operation was aborted."
  | .syntaxError m => m
  | .fetchError m => m

/-- An HTTP response as `request` observes it: status line plus the result
of `await response.json()` (`.error` when the body is not valid JSON). -/
structure HttpResponse (T : Type) where
  status : Nat
  statusText : String
  body : Except String (AlfredApiResponse T)

/-- The `response.ok` predicate of fetch: status in the range 200-299. -/
def HttpResponse.ok (r : HttpResponse T) : Bool :=
  200 ≤ r.status && r.status ≤ 299

/-- What the network does on one call: a response arriving `arrival`
milliseconds after the request was issued, an immediate network-level
failure, or no response ever. -/
inductive FetchEvent (T : Type) where
  | response (arrival : Nat) (resp : HttpResponse T)
  | netError (msg : String)
  | never

/-- Resolution of the fetch promise under the abort timer that `request`
arms with `setTimeout(() => controller.abort(), timeout)`: per the platform
semantics of `AbortController`, the promise rejects with an `AbortError`
exactly when the timer fires before a response arrives; a network failure
rejects with the underlying error. -/
def fetchResult (timeout : Nat) : FetchEvent T → Except JsError (HttpResponse T)
  | .response arrival resp =>
      if arrival ≤ timeout then .ok resp else .error .abortError
  | .netError m => .error (.fetchError m)
  | .never => .error .abortError

/-- Whether the abort signal fired (cancelling the in-flight call) before
the fetch settled. -/
def abortFired (timeout : Nat) : FetchEvent T → Bool
  | .response arrival _ => decide (timeout < arrival)
  | .netError _ => false
  | .never => true

/-- The outbound HTTP request `request` hands to fetch.  The body is kept
structural (type `B`); `request` serializes it as JSON on the wire. -/
structure OutboundRequest (B : Type) where
  url : String
  method : String
  headers : List (String × String)
  body : Option B
deriving Repr

namespace AlfredClient

/-- The headers object literal of `AlfredClient.request` (client.ts
lines 38-41): the API-key header and the JSON content-type header are both
attached on every call, whether or not a body is present. -/
def requestHeaders (cfg : AlfredClientConfig) : List (String × String) :=
  [("X-API-Key", cfg.apiKey), ("Content-Type", "application/json")]

/-- Result part of `AlfredClient.request` (client.ts lines 32-62), given
the network's behaviour on this call.  Mirrors the source structure: the
`try` block awaits fetch (subject to the abort timer), clears the timer,
parses the body as JSON, then throws a plain `Error` on a non-ok status
with the message `data.error || data.message || "HTTP <status>:
<statusText>"`; the `catch` clause converts an `AbortError` into
`Error("Request timeout after <timeout>ms")` and rethrows anything else. -/
def requestResult (cfg : AlfredClientConfig) (ev : FetchEvent T) :
    Except JsError (AlfredApiResponse T) :=
  let attempt : Except JsError (AlfredApiResponse T) :=
    match fetchResult cfg.timeout ev with
    | .error e => .error e
    | .ok response =>
      match response.body with
      | .error parseMsg => .error (.syntaxError parseMsg)
      | .ok data =>
        if response.ok then
          .ok data
        else
          .error (.error (jsOrStr data.error (jsOrStr data.message
            ("HTTP " ++ toString response.status ++ ": " ++ response.statusText))))
  match attempt with
  | .ok data => .ok data
  | .error e =>
      if e.name = "AbortError" then
        .error (.error ("Request timeout after " ++ toString cfg.timeout ++ "ms"))
      else
        .error e

/-- The private `request` method of `AlfredClient` (client.ts lines 25-63):
produces the outbound HTTP request (URL `baseUrl + path`, the fixed headers,
the JSON body exactly when one was passed) together with the normalized
result for the given network behaviour. -/
def request (cfg : AlfredClientConfig) (method path : String) (body : Option B)
    (ev : FetchEvent T) :
    OutboundRequest B × Except JsError (AlfredApiResponse T) :=
  ({ url := cfg.baseUrl ++ path
     method := method
     headers := requestHeaders cfg
     body := body },
   requestResult cfg ev)

end AlfredClient

/-! ## Query string construction for list-style operations (client.ts)

Each list-style method iterates `Object.entries(params)` in the insertion
order of the params object its callers build, appending
`query.append(key, String(value))` for every entry whose value is not
`undefined`.  The embedding represents the params object as a record, its
`Object.entries` view as an ordered list of `(key, Option String)` pairs
(values already `String(...)`-converted), and `URLSearchParams` as the list
of appended `(key, value)` pairs. -/

/-- The `Object.entries` loop of the list methods: keep, in order, exactly
the entries whose value is defined. -/
def buildQueryParams (entries : List (String × Option String)) :
    List (String × String) :=
  entries.filterMap (fun e => e.2.map (fun v => (e.1, v)))

/-- Rendering of `URLSearchParams.toString()` (percent-encoding of values
is not modelled; no verified property depends on it). -/
def queryToString (params : List (String × String)) : String :=
  String.intercalate "&" (params.map (fun e => e.1 ++ "=" ++ e.2))

/-- The `?`-prefixed suffix appended to the path:
``queryString ? `?${queryString}` : ""``. -/
def querySuffix (params : List (String × String)) : String :=
  if queryToString params = "" then "" else "?" ++ queryToString params

/-- Filter object of `AlfredClient.listSkills` (client.ts lines 66-74). -/
structure ListSkillsParams where
  isActive : Option Bool := none
  triggerType : Option String := none
  isSystem : Option Bool := none
  limit : Option Int := none
  offset : Option Int := none
  sortBy : Option String := none
  sortOrder : Option String := none
deriving DecidableEq, Repr

/-- `Object.entries` view of a `listSkills` params object, in the key order
its callers build it with, values `String(...)`-converted. -/
def ListSkillsParams.entries (p : ListSkillsParams) :
    List (String × Option String) :=
  [("isActive", p.isActive.map jsBoolStr),
   ("triggerType", p.triggerType),
   ("isSystem", p.isSystem.map jsBoolStr),
   ("limit", p.limit.map jsIntStr),
   ("offset", p.offset.map jsIntStr),
   ("sortBy", p.sortBy),
   ("sortOrder", p.sortOrder)]

/-- Query parameters built by `AlfredClient.listSkills`. -/
def listSkillsQueryParams (p : ListSkillsParams) : List (String × String) :=
  buildQueryParams p.entries

/-- Filter object of `AlfredClient.listConnections` (client.ts
lines 109-118). -/
structure ListConnectionsParams where
  isActive : Option Bool := none
  type : Option String := none
  source : Option String := none
  authStatus : Option String := none
  limit : Option Int := none
  offset : Option Int := none
  sortBy : Option String := none
  sortOrder : Option String := none
deriving DecidableEq, Repr

/-- `Object.entries` view of a `listConnections` params object. -/
def ListConnectionsParams.entries (p : ListConnectionsParams) :
    List (String × Option String) :=
  [("isActive", p.isActive.map jsBoolStr),
   ("type", p.type),
   ("source", p.source),
   ("authStatus", p.authStatus),
   ("limit", p.limit.map jsIntStr),
   ("offset", p.offset.map jsIntStr),
   ("sortBy", p.sortBy),
   ("sortOrder", p.sortOrder)]

/-- Query parameters built by `AlfredClient.listConnections`. -/
def listConnectionsQueryParams (p : ListConnectionsParams) :
    List (String × String) :=
  buildQueryParams p.entries

/-- Filter object of `AlfredClient.listExecutions` (client.ts
lines 152-162). -/
structure ListExecutionsParams where
  skillId : Option String := none
  status : Option String := none
  trigger : Option String := none
  startDate : Option String := none
  endDate : Option String := none
  limit : Option Int := none
  offset : Option Int := none
  sortBy : Option String := none
  sortOrder : Option String := none
deriving DecidableEq, Repr

/-- `Object.entries` view of a `listExecutions` params object. -/
def ListExecutionsParams.entries (p : ListExecutionsParams) :
    List (String × Option String) :=
  [("skillId", p.skillId),
   ("status", p.status),
   ("trigger", p.trigger),
   ("startDate", p.startDate),
   ("endDate", p.endDate),
   ("limit", p.limit.map jsIntStr),
   ("offset", p.offset.map jsIntStr),
   ("sortBy", p.sortBy),
   ("sortOrder", p.sortOrder)]

/-- Query parameters built by `AlfredClient.listExecutions`. -/
def listExecutionsQueryParams (p : ListExecutionsParams) :
    List (String × String) :=
  buildQueryParams p.entries

/-- Filter object of `AlfredClient.getExecutionStats` (client.ts
lines 183-187). -/
structure GetExecutionStatsParams where
  startDate : Option String := none
  endDate : Option String := none
  skillId : Option String := none
deriving DecidableEq, Repr

/-- `Object.entries` view of a `getExecutionStats` params object. -/
def GetExecutionStatsParams.entries (p : GetExecutionStatsParams) :
    List (String × Option String) :=
  [("startDate", p.startDate),
   ("endDate", p.endDate),
   ("skillId", p.skillId)]

/-- Query parameters built by `AlfredClient.getExecutionStats`. -/
def getExecutionStatsQueryParams (p : GetExecutionStatsParams) :
    List (String × String) :=
  buildQueryParams p.entries

namespace AlfredClient

/-- `AlfredClient.listSkills` (client.ts lines 66-85). -/
def listSkills (cfg : AlfredClientConfig) (p : ListSkillsParams)
    (ev : FetchEvent (List Skill)) :
    OutboundRequest Unit × Except JsError (AlfredApiResponse (List Skill)) :=
  request cfg "GET" ("/skills" ++ querySuffix (listSkillsQueryParams p)) none ev

/-- `AlfredClient.listConnections` (client.ts lines 109-129). -/
def listConnections (cfg : AlfredClientConfig) (p : ListConnectionsParams)
    (ev : FetchEvent (List Connection)) :
    OutboundRequest Unit × Except JsError (AlfredApiResponse (List Connection)) :=
  request cfg "GET" ("/connections" ++ querySuffix (listConnectionsQueryParams p))
    none ev

/-- `AlfredClient.listExecutions` (client.ts lines 152-173). -/
def listExecutions (cfg : AlfredClientConfig) (p : ListExecutionsParams)
    (ev : FetchEvent (List Execution)) :
    OutboundRequest Unit × Except JsError (AlfredApiResponse (List Execution)) :=
  request cfg "GET" ("/executions" ++ querySuffix (listExecutionsQueryParams p))
    none ev

/-- `AlfredClient.getExecutionStats` (client.ts lines 183-198). -/
def getExecutionStats (cfg : AlfredClientConfig) (p : GetExecutionStatsParams)
    (ev : FetchEvent ExecutionStats) :
    OutboundRequest Unit × Except JsError (AlfredApiResponse ExecutionStats) :=
  request cfg "GET"
    ("/executions/stats" ++ querySuffix (getExecutionStatsQueryParams p)) none ev

end AlfredClient

/-! ## Patch tools: update payload construction (skills.ts lines 464-481,
connections.ts lines 634-645)

The patch handlers destructure the id out of the validated input and build
`updateFields` as an object holding only the fields the caller actually
supplied (`if (patchData.x !== undefined) updateFields.x = patchData.x`).
The payload object is embedded as the ordered list of its fields. -/

/-- Values that can appear in a patch payload field. -/
inductive PatchVal where
  | str (s : String)
  | bool (b : Bool)
  | steps (l : List SkillStep)
  | names (l : List String)
  | config (c : JsAny)
deriving DecidableEq, Repr

/-- Validated input of `alfred_patch_skill` (inline zod schema, skills.ts
lines 434-462): the skill id plus six optional fields. -/
structure PatchSkillInput where
  skillId : String
  name : Option String := none
  description : Option String := none
  triggerType : Option String := none
  steps : Option (List SkillStep) := none
  connectionNames : Option (List String) := none
  isActive : Option Bool := none
deriving DecidableEq, Repr

/-- One conditional `if (x !== undefined) updateFields.key = x` assignment:
the field is added exactly when the value is defined. -/
def patchEntry (key : String) (o : Option α) (f : α → PatchVal) :
    List (String × PatchVal) :=
  match o with
  | some a => [(key, f a)]
  | none => []

/-- The `updateFields` object built by the `alfred_patch_skill` handler
(skills.ts lines 469-479), in source assignment order. -/
def patchSkillPayload (p : PatchSkillInput) : List (String × PatchVal) :=
  patchEntry "name" p.name .str ++
  patchEntry "description" p.description .str ++
  patchEntry "triggerType" p.triggerType .str ++
  patchEntry "steps" p.steps .steps ++
  patchEntry "connectionNames" p.connectionNames .names ++
  patchEntry "isActive" p.isActive .bool

/-- Validated input of `alfred_patch_connection` (inline zod schema,
connections.ts lines 611-632). -/
structure PatchConnectionInput where
  connectionId : String
  name : Option String := none
  type : Option String := none
  config : Option JsAny := none
  isActive : Option Bool := none
deriving DecidableEq, Repr

/-- The `updateFields` object built by the `alfred_patch_connection` handler
(connections.ts lines 639-643), in source assignment order. -/
def patchConnectionPayload (p : PatchConnectionInput) :
    List (String × PatchVal) :=
  patchEntry "name" p.name .str ++
  patchEntry "type" p.type .str ++
  patchEntry "config" p.config .config ++
  patchEntry "isActive" p.isActive .bool

namespace AlfredClient

/-- `AlfredClient.patchSkill` (client.ts lines 99-101); the body is the
patch payload object. -/
def patchSkill (cfg : AlfredClientConfig) (id : String)
    (data : List (String × PatchVal)) (ev : FetchEvent Skill) :
    OutboundRequest (List (String × PatchVal)) ×
      Except JsError (AlfredApiResponse Skill) :=
  request cfg "PATCH" ("/skills/" ++ id) (some data) ev

/-- `AlfredClient.patchConnection` (client.ts lines 143-145). -/
def patchConnection (cfg : AlfredClientConfig) (id : String)
    (data : List (String × PatchVal)) (ev : FetchEvent Connection) :
    OutboundRequest (List (String × PatchVal)) ×
      Except JsError (AlfredApiResponse Connection) :=
  request cfg "PATCH" ("/connections/" ++ id) (some data) ev

end AlfredClient

/-! ## Tool results (src/tools/&#42;.ts)

Each registered tool handler makes exactly one client call inside a
`try`/`catch` and returns a structured result.  The embedding gives each
handler the outcome of its client call (`.error e` when the call threw) and
makes the `try`/`catch` boundary explicit: the body propagates exceptions
as `Except.error`, the registered handler wraps the body and converts every
exception into a structured result.  `JSON.stringify(x)` payloads are kept
as the structural value `x` (an `OutVal` tree mirroring the source's object
literals); `undefined`-valued fields are `.jsUndefined` (dropped by
`JSON.stringify`). -/

/-- Values appearing in result object literals. -/
inductive OutVal where
  | str (s : String)
  | bool (b : Bool)
  | num (n : Int)
  | null
  | jsUndefined
  | obj (fields : List (String × OutVal))
  | arr (xs : List OutVal)
  | skillData (s : Skill)
  | skillList (l : List Skill)
  | connData (c : Connection)
  | connList (l : List Connection)
  | pageMeta (m : PaginationMeta)
  | anyData (a : JsAny)

/-- One item of a tool result's `content` array: either
`JSON.stringify(payload)` or a plain template string. -/
inductive ToolContent where
  | json (v : OutVal)
  | text (s : String)

/-- A structured MCP tool result. -/
structure ToolResult where
  content : List ToolContent
  isError : Bool := false

/-- An optional value in an object literal: `undefined` when absent. -/
def outOpt (f : α → OutVal) : Option α → OutVal
  | some a => f a
  | none => .jsUndefined

/-- JS `x || null` for an optional string (`""` is falsy, so it also
collapses to `null`). -/
def jsOrNull (o : Option String) : OutVal :=
  match o with
  | some s => if s = "" then .null else .str s
  | none => .null

/-- JS `a || b` for an optional boolean and a boolean default. -/
def jsOrBoolOpt (o : Option Bool) (d : Bool) : Bool :=
  match o with
  | some b => b || d
  | none => d

/-- The `try`/`catch` wrapper every handler uses: a thrown exception is
converted into the catch clause's structured result, so the registered
handler never rejects. -/
def runTool (body : Except JsError ToolResult)
    (catcher : JsError → ToolResult) : Except JsError ToolResult :=
  match body with
  | .ok r => .ok r
  | .error e => .ok (catcher e)

/-- Failure result of the skills/connections tools on a `success: false`
envelope: `JSON.stringify({error: response.error || <fallback>,
success: false})`. -/
def envFailResult (fallback : String) (error : Option String) : ToolResult :=
  { content := [.json (.obj
      [("error", .str (jsOrStr error fallback)),
       ("success", .bool false)])] }

/-- Catch clause of the skills/connections tools:
`JSON.stringify({error: `<action>: ${message}`, success: false})` with
`message = error instanceof Error ? error.message : "Unknown error"` (every
modelled exception is an `Error`, so its `message` is used). -/
def catchJsonResult (action : String) (e : JsError) : ToolResult :=
  { content := [.json (.obj
      [("error", .str (action ++ ": " ++ e.message)),
       ("success", .bool false)])] }

/-- Message of the `TypeError` raised by dereferencing a field of an
`undefined` `response.data`; modelled as a plain `Error` (the handlers'
catch clauses only use its `message`). -/
def undefinedDataError : JsError :=
  .error "Cannot read properties of undefined"

/-! ### Skills tools (src/tools/skills.ts) -/

/-- Handler of `alfred_list_skills` (skills.ts lines 165-218), from the
outcome of its `client.listSkills` call. -/
def alfred_list_skills (o : Except JsError (AlfredApiResponse (List Skill))) :
    Except JsError ToolResult :=
  runTool
    (match o with
     | .error e => .error e
     | .ok response =>
       if !response.success then
         .ok (envFailResult "Failed to list skills" response.error)
       else
         .ok { content := [.json (.obj
           [("success", .bool true),
            ("skills", .skillList (response.data.getD [])),
            ("pagination", outOpt .pageMeta response.meta)])] })
    (catchJsonResult "Failed to list skills")

/-- Handler of `alfred_get_skill` (skills.ts lines 234-278). -/
def alfred_get_skill (o : Except JsError (AlfredApiResponse Skill)) :
    Except JsError ToolResult :=
  runTool
    (match o with
     | .error e => .error e
     | .ok response =>
       if !response.success then
         .ok (envFailResult "Skill not found" response.error)
       else
         .ok { content := [.json (.obj
           [("success", .bool true),
            ("skill", outOpt .skillData response.data)])] })
    (catchJsonResult "Failed to retrieve skill")

/-- Handler of `alfred_create_skill` (skills.ts lines 293-347), given the
validated input's `name` (the only input field the result shaping uses). -/
def alfred_create_skill (name : String)
    (o : Except JsError (AlfredApiResponse Skill)) : Except JsError ToolResult :=
  runTool
    (match o with
     | .error e => .error e
     | .ok response =>
       if !response.success then
         .ok (envFailResult "Failed to create skill" response.error)
       else
         .ok { content := [.json (.obj
           [("success", .bool true),
            ("skill", outOpt .skillData response.data),
            ("message", .str ("Skill \"" ++ name ++ "\" created successfully"))])] })
    (catchJsonResult "Failed to create skill")

/-- Handler of `alfred_update_skill` (skills.ts lines 365-421). -/
def alfred_update_skill (o : Except JsError (AlfredApiResponse Skill)) :
    Except JsError ToolResult :=
  runTool
    (match o with
     | .error e => .error e
     | .ok response =>
       if !response.success then
         .ok (envFailResult "Failed to update skill" response.error)
       else
         .ok { content := [.json (.obj
           [("success", .bool true),
            ("skill", outOpt .skillData response.data),
            ("message", .str "Skill updated successfully")])] })
    (catchJsonResult "Failed to update skill")

/-- Handler of `alfred_patch_skill` (skills.ts lines 464-524); its outbound
payload is `patchSkillPayload` of the validated input. -/
def alfred_patch_skill (o : Except JsError (AlfredApiResponse Skill)) :
    Except JsError ToolResult :=
  runTool
    (match o with
     | .error e => .error e
     | .ok response =>
       if !response.success then
         .ok (envFailResult "Failed to patch skill" response.error)
       else
         .ok { content := [.json (.obj
           [("success", .bool true),
            ("skill", outOpt .skillData response.data),
            ("message", .str "Skill patched successfully")])] })
    (catchJsonResult "Failed to patch skill")

/-- Handler of `alfred_delete_skill` (skills.ts lines 546-591). -/
def alfred_delete_skill (o : Except JsError (AlfredApiResponse Skill)) :
    Except JsError ToolResult :=
  runTool
    (match o with
     | .error e => .error e
     | .ok response =>
       if !response.success then
         .ok (envFailResult "Failed to delete skill" response.error)
       else
         .ok { content := [.json (.obj
           [("success", .bool true),
            ("message", .str "Skill deleted successfully"),
            ("deletedSkill", outOpt .skillData response.data)])] })
    (catchJsonResult "Failed to delete skill")

/-! ### Connections tools (src/tools/connections.ts) -/

/-- Handler of `alfred_list_connections` (connections.ts lines 345-399). -/
def alfred_list_connections
    (o : Except JsError (AlfredApiResponse (List Connection))) :
    Except JsError ToolResult :=
  runTool
    (match o with
     | .error e => .error e
     | .ok response =>
       if !response.success then
         .ok (envFailResult "Failed to list connections" response.error)
       else
         .ok { content := [.json (.obj
           [("success", .bool true),
            ("connections", .connList (response.data.getD [])),
            ("pagination", outOpt .pageMeta response.meta)])] })
    (catchJsonResult "Failed to list connections")

/-- Handler of `alfred_get_connection` (connections.ts lines 415-459). -/
def alfred_get_connection (o : Except JsError (AlfredApiResponse Connection)) :
    Except JsError ToolResult :=
  runTool
    (match o with
     | .error e => .error e
     | .ok response =>
       if !response.success then
         .ok (envFailResult "Connection not found" response.error)
       else
         .ok { content := [.json (.obj
           [("success", .bool true),
            ("connection", outOpt .connData response.data)])] })
    (catchJsonResult "Failed to retrieve connection")

/-- Handler of `alfred_create_connection` (connections.ts lines 474-526),
given the validated input's `name`. -/
def alfred_create_connection (name : String)
    (o : Except JsError (AlfredApiResponse Connection)) :
    Except JsError ToolResult :=
  runTool
    (match o with
     | .error e => .error e
     | .ok response =>
       if !response.success then
         .ok (envFailResult "Failed to create connection" response.error)
       else
         .ok { content := [.json (.obj
           [("success", .bool true),
            ("connection", outOpt .connData response.data),
            ("message", .str ("Connection \"" ++ name ++ "\" created successfully"))])] })
    (catchJsonResult "Failed to create connection")

/-- Handler of `alfred_update_connection` (connections.ts lines 544-598). -/
def alfred_update_connection (o : Except JsError (AlfredApiResponse Connection)) :
    Except JsError ToolResult :=
  runTool
    (match o with
     | .error e => .error e
     | .ok response =>
       if !response.success then
         .ok (envFailResult "Failed to update connection" response.error)
       else
         .ok { content := [.json (.obj
           [("success", .bool true),
            ("connection", outOpt .connData response.data),
            ("message", .str "Connection updated successfully")])] })
    (catchJsonResult "Failed to update connection")

/-- Handler of `alfred_patch_connection` (connections.ts lines 634-688);
its outbound payload is `patchConnectionPayload` of the validated input. -/
def alfred_patch_connection (o : Except JsError (AlfredApiResponse Connection)) :
    Except JsError ToolResult :=
  runTool
    (match o with
     | .error e => .error e
     | .ok response =>
       if !response.success then
         .ok (envFailResult "Failed to patch connection" response.error)
       else
         .ok { content := [.json (.obj
           [("success", .bool true),
            ("connection", outOpt .connData response.data),
            ("message", .str "Connection patched successfully")])] })
    (catchJsonResult "Failed to patch connection")

/-- Handler of `alfred_delete_connection` (connections.ts lines 704-749). -/
def alfred_delete_connection (o : Except JsError (AlfredApiResponse Connection)) :
    Except JsError ToolResult :=
  runTool
    (match o with
     | .error e => .error e
     | .ok response =>
       if !response.success then
         .ok (envFailResult "Failed to delete connection" response.error)
       else
         .ok { content := [.json (.obj
           [("success", .bool true),
            ("message", .str "Connection deleted successfully"),
            ("deletedConnection", outOpt .connData response.data)])] })
    (catchJsonResult "Failed to delete connection")

/-! ### Executions tools (src/tools/executions.ts)

These handlers cast `response.data` and dereference its fields; when
`data` is absent on a `success: true` envelope the dereference raises a
`TypeError` that the surrounding `catch` converts (modelled as throwing
`undefinedDataError`). -/

/-- One element of the `executions.map((e) => ({...}))` array of
`alfred_list_executions` (executions.ts lines 91-100). -/
def executionListItem (e : Execution) : OutVal :=
  .obj [("id", .str e.id),
        ("skillId", .str e.skillId),
        ("status", .str e.status),
        ("trigger", .str e.trigger),
        ("startedAt", .str e.startedAt),
        ("completedAt", outOpt .str e.completedAt),
        ("durationMs", outOpt .num e.durationMs),
        ("error", jsOrNull e.error)]

/-- Handler of `alfred_list_executions` (executions.ts lines 38-118). -/
def alfred_list_executions
    (o : Except JsError (AlfredApiResponse (List Execution))) :
    Except JsError ToolResult :=
  runTool
    (match o with
     | .error e => .error e
     | .ok response =>
       if !response.success then
         .ok { content := [.text ("Error listing executions: " ++
           jsTemplate (jsOrOpt response.error response.message))] }
       else
         match response.data with
         | none => .error undefinedDataError
         | some executions =>
           .ok { content := [.json (.obj
             [("success", .bool true),
              ("count", .num executions.length),
              ("total", .num (jsOrIntOpt (response.meta.map (·.total)) 0)),
              ("page", .num (jsOrIntOpt (response.meta.map (·.page)) 1)),
              ("limit", .num (jsOrIntOpt (response.meta.map (·.limit)) 50)),
              ("totalPages", .num (jsOrIntOpt (response.meta.map (·.totalPages)) 0)),
              ("hasMore", .bool (jsOrBoolOpt (response.meta.map (·.hasMore)) false)),
              ("executions", .arr (executions.map executionListItem))])] })
    (fun e => { content := [.text ("Failed to list executions: " ++ e.message)] })

/-- Handler of `alfred_get_execution` (executions.ts lines 130-188). -/
def alfred_get_execution (o : Except JsError (AlfredApiResponse Execution)) :
    Except JsError ToolResult :=
  runTool
    (match o with
     | .error e => .error e
     | .ok response =>
       if !response.success then
         .ok { content := [.text ("Error getting execution: " ++
           jsTemplate (jsOrOpt response.error response.message))] }
       else
         match response.data with
         | none => .error undefinedDataError
         | some execution =>
           .ok { content := [.json (.obj
             [("success", .bool true),
              ("execution", .obj
                [("id", .str execution.id),
                 ("skillId", .str execution.skillId),
                 ("status", .str execution.status),
                 ("trigger", .str execution.trigger),
                 ("input", outOpt .anyData execution.input),
                 ("output", outOpt .str execution.output),
                 ("error", outOpt .str execution.error),
                 ("startedAt", .str execution.startedAt),
                 ("completedAt", outOpt .str execution.completedAt),
                 ("durationMs", outOpt .num execution.durationMs),
                 ("tokenCount", outOpt .num execution.tokenCount),
                 ("costUsd", outOpt .str execution.costUsd),
                 ("reportedToCore", .bool execution.reportedToCore)])])] })
    (fun e => { content := [.text ("Failed to get execution: " ++ e.message)] })

/-- Handler of `alfred_get_execution_trace` (executions.ts lines 200-245),
given the execution id from its validated input. -/
def alfred_get_execution_trace (executionId : String)
    (o : Except JsError (AlfredApiResponse JsAny)) : Except JsError ToolResult :=
  runTool
    (match o with
     | .error e => .error e
     | .ok response =>
       if !response.success then
         .ok { content := [.text ("Error getting execution trace: " ++
           jsTemplate (jsOrOpt response.error response.message))] }
       else
         .ok { content := [.json (.obj
           [("success", .bool true),
            ("executionId", .str executionId),
            ("trace", outOpt .anyData response.data)])] })
    (fun e => { content := [.text ("Failed to get execution trace: " ++ e.message)] })

/-- One element of the `stats.bySkill.map` array (executions.ts
lines 300-307). -/
def statsBySkillItem (s : ExecutionStatsBySkill) : OutVal :=
  .obj [("skillId", .str s.skillId),
        ("skillName", .str s.skillName),
        ("count", .num s.count),
        ("successCount", .num s.successCount),
        ("avgDurationMs", .num s.avgDurationMs),
        ("totalCostUsd", .str s.totalCostUsd)]

/-- One element of the `stats.byDay.map` array (executions.ts
lines 308-313). -/
def statsByDayItem (d : ExecutionStatsByDay) : OutVal :=
  .obj [("date", .str d.date),
        ("count", .num d.count),
        ("successful", .num d.successful),
        ("failed", .num d.failed)]

/-- Handler of `alfred_get_execution_stats` (executions.ts lines 260-333). -/
def alfred_get_execution_stats
    (o : Except JsError (AlfredApiResponse ExecutionStats)) :
    Except JsError ToolResult :=
  runTool
    (match o with
     | .error e => .error e
     | .ok response =>
       if !response.success then
         .ok { content := [.text ("Error getting execution stats: " ++
           jsTemplate (jsOrOpt response.error response.message))] }
       else
         match response.data with
         | none => .error undefinedDataError
         | some stats =>
           .ok { content := [.json (.obj
             [("success", .bool true),
              ("stats", .obj
                [("overview", .obj
                  [("total", .num stats.overview.total),
                   ("successful", .num stats.overview.successful),
                   ("failed", .num stats.overview.failed),
                   ("running", .num stats.overview.running),
                   ("successRate", .num stats.overview.successRate),
                   ("totalCostUsd", .str stats.overview.totalCostUsd),
                   ("averageDurationMs", outOpt .num stats.overview.averageDurationMs)]),
                 ("bySkill", .arr (stats.bySkill.map statsBySkillItem)),
                 ("byDay", .arr (stats.byDay.map statsByDayItem))])])] })
    (fun e => { content := [.text ("Failed to get execution stats: " ++ e.message)] })

/-- Handler of `alfred_delete_execution` (executions.ts lines 344-396),
given the execution id from its validated input. -/
def alfred_delete_execution (executionId : String)
    (o : Except JsError (AlfredApiResponse Execution)) : Except JsError ToolResult :=
  runTool
    (match o with
     | .error e => .error e
     | .ok response =>
       if !response.success then
         .ok { content := [.text ("Error deleting execution: " ++
           jsTemplate (jsOrOpt response.error response.message))] }
       else
         match response.data with
         | none => .error undefinedDataError
         | some execution =>
           .ok { content := [.json (.obj
             [("success", .bool true),
              ("message", .str ("Execution " ++ executionId ++ " deleted successfully")),
              ("execution", .obj
                [("id", .str execution.id),
                 ("skillId", .str execution.skillId),
                 ("status", .str execution.status),
                 ("startedAt", .str execution.startedAt),
                 ("completedAt", outOpt .str execution.completedAt)])])] })
    (fun e => { content := [.text ("Failed to delete execution: " ++ e.message)] })

/-! ### Auth tools (src/tools/auth.ts) -/

/-- The one-time result text of `alfred_create_api_key` (auth.ts
lines 72-86): the template literal, transcribed field for field, including
the one-time-display warning and the full secret `key`. -/
def createApiKeyText (r : CreateApiKeyResponse) : String :=
  "API Key Created Successfully\n\nWARNING: This is the only time the API key will be displayed. Save it securely immediately.\n\nKey Details:\n- ID: "
  ++ r.id
  ++ "\n- Name: "
  ++ r.name
  ++ "\n- Key: "
  ++ r.key
  ++ "\n- Key Prefix: "
  ++ r.keyPrefix
  ++ "\n"
  ++ (match r.description with
      | some s => if s = "" then "" else "- Description: " ++ s
      | none => "")
  ++ "\n"
  ++ (match r.expiresAt with
      | some s => if s = "" then "- Expires: Never" else "- Expires At: " ++ s
      | none => "- Expires: Never")
  ++ "\n- Created At: "
  ++ r.createdAt
  ++ "\n- Active: "
  ++ jsBoolStr r.isActive
  ++ "\n\nUse this API key in the X-API-Key header when making requests to the Alfred API."

/-- Handler of `alfred_create_api_key` (auth.ts lines 43-116). -/
def alfred_create_api_key
    (o : Except JsError (AlfredApiResponse CreateApiKeyResponse)) :
    Except JsError ToolResult :=
  runTool
    (match o with
     | .error e => .error e
     | .ok response =>
       match response.data with
       | none =>
         .ok { content := [.json (.obj
           [("error", .str (jsOrStr response.error "Failed to create API key")),
            ("message", outOpt .str response.message)])] }
       | some apiKey =>
         if !response.success then
           .ok { content := [.json (.obj
             [("error", .str (jsOrStr response.error "Failed to create API key")),
              ("message", outOpt .str response.message)])] }
         else
           .ok { content := [.text (createApiKeyText apiKey)] })
    (fun e =>
      { content := [.json (.obj [("error", .str "Failed to create API key"),
                                 ("details", .str e.message)])],
        isError := true })

/-- One numbered entry of the `alfred_list_api_keys` text (auth.ts
lines 168-177), for the key at 0-based position `idx`: it renders only the
non-secret fields of `ApiKey` (id, name, prefix, flags, dates,
description). -/
def apiKeyEntryText (idx : Nat) (k : ApiKey) : String :=
  toString (idx + 1) ++ ". " ++ k.name
  ++ "\n   ID: " ++ k.id
  ++ "\n   Prefix: " ++ k.keyPrefix
  ++ "\n   Active: " ++ jsBoolStr k.isActive
  ++ "\n   Created: " ++ k.createdAt
  ++ "\n   "
  ++ (match k.expiresAt with
      | some s => if s = "" then "Expires: Never" else "Expires: " ++ s
      | none => "Expires: Never")
  ++ "\n   "
  ++ (match k.lastUsedAt with
      | some s => if s = "" then "Last Used: Never" else "Last Used: " ++ s
      | none => "Last Used: Never")
  ++ "\n   "
  ++ (match k.description with
      | some s => if s = "" then "" else "Description: " ++ s
      | none => "")

/-- The result text of `alfred_list_api_keys` for a non-empty key list
(auth.ts lines 167-185). -/
def listApiKeysText (ks : List ApiKey) : String :=
  "API Keys (" ++ toString ks.length ++ " total)\n\n"
  ++ String.intercalate "\n\n" (ks.enum.map (fun e => apiKeyEntryText e.1 e.2))
  ++ "\n\nNote: For security, full API key values are never returned in list operations.\nIf you need a new key, use alfred_create_api_key."

/-- Handler of `alfred_list_api_keys` (auth.ts lines 131-216). -/
def alfred_list_api_keys
    (o : Except JsError (AlfredApiResponse (List ApiKey))) :
    Except JsError ToolResult :=
  runTool
    (match o with
     | .error e => .error e
     | .ok response =>
       match response.data with
       | none =>
         .ok { content := [.json (.obj
           [("error", .str (jsOrStr response.error "Failed to list API keys")),
            ("message", outOpt .str response.message)])] }
       | some apiKeys =>
         if !response.success then
           .ok { content := [.json (.obj
             [("error", .str (jsOrStr response.error "Failed to list API keys")),
              ("message", outOpt .str response.message)])] }
         else if apiKeys.length = 0 then
           .ok { content :=
             [.text "No API keys found. Create one using alfred_create_api_key."] }
         else
           .ok { content := [.text (listApiKeysText apiKeys)] })
    (fun e =>
      { content := [.json (.obj [("error", .str "Failed to list API keys"),
                                 ("details", .str e.message)])],
        isError := true })

/-- The success text of `alfred_delete_api_key` (auth.ts lines 256-264). -/
def deleteApiKeyText (k : ApiKey) : String :=
  "API Key Deleted Successfully\n\nDeleted Key:\n- ID: " ++ k.id
  ++ "\n- Name: " ++ k.name
  ++ "\n- Key Prefix: " ++ k.keyPrefix
  ++ "\n\nThis API key is now invalid and can no longer be used to authenticate.\nAny applications or integrations using this key will lose access."

/-- Handler of `alfred_delete_api_key` (auth.ts lines 232-294); it
dereferences `response.data as ApiKey`, so an absent `data` on success
raises the modelled `TypeError`. -/
def alfred_delete_api_key (o : Except JsError (AlfredApiResponse ApiKey)) :
    Except JsError ToolResult :=
  runTool
    (match o with
     | .error e => .error e
     | .ok response =>
       if !response.success then
         .ok { content := [.json (.obj
           [("error", .str (jsOrStr response.error "Failed to delete API key")),
            ("message", outOpt .str response.message)])] }
       else
         match response.data with
         | none => .error undefinedDataError
         | some deletedKey =>
           .ok { content := [.text (deleteApiKeyText deletedKey)] })
    (fun e =>
      { content := [.json (.obj [("error", .str "Failed to delete API key"),
                                 ("details", .str e.message)])],
        isError := true })

/-! ## List tool input parsing and call parameters

The list tools validate caller input with zod schemas whose `limit` and
`offset` carry `.default(50)` / `.default(0)`; zod fills the default when
the caller omits the field.  The structural constraint checks (integer,
bounds, enum membership, uuid/datetime formats) reject invalid input before
any client call and are not modelled: the embedding starts from
structurally valid caller input. -/

/-- Caller input of `alfred_list_skills` before zod parsing
(`ListSkillsInputSchema`, skills.ts lines 106-141). -/
structure ListSkillsRawInput where
  isActive : Option Bool := none
  triggerType : Option String := none
  isSystem : Option Bool := none
  limit : Option Int := none
  offset : Option Int := none
  sortBy : Option String := none
  sortOrder : Option String := none
deriving DecidableEq, Repr

/-- Input of the `alfred_list_skills` handler after zod parsing:
`limit`/`offset` are filled with their schema defaults. -/
structure ListSkillsParsedInput where
  isActive : Option Bool := none
  triggerType : Option String := none
  isSystem : Option Bool := none
  limit : Int
  offset : Int
  sortBy : Option String := none
  sortOrder : Option String := none
deriving DecidableEq, Repr

/-- Zod defaulting step of `ListSkillsInputSchema`: `limit` defaults to 50,
`offset` to 0 when omitted. -/
def parseListSkillsInput (r : ListSkillsRawInput) : ListSkillsParsedInput :=
  { isActive := r.isActive
    triggerType := r.triggerType
    isSystem := r.isSystem
    limit := r.limit.getD 50
    offset := r.offset.getD 0
    sortBy := r.sortBy
    sortOrder := r.sortOrder }

/-- The params object the `alfred_list_skills` handler passes to
`client.listSkills` (skills.ts lines 167-175): note the additional
JS-level `input.limit || 50` / `input.offset || 0`. -/
def listSkillsCallParams (input : ListSkillsParsedInput) : ListSkillsParams :=
  { isActive := input.isActive
    triggerType := input.triggerType
    isSystem := input.isSystem
    limit := some (jsOrInt input.limit 50)
    offset := some (jsOrInt input.offset 0)
    sortBy := input.sortBy
    sortOrder := input.sortOrder }

/-- Caller input of `alfred_list_connections` before zod parsing
(`ListConnectionsInputSchema`, connections.ts lines 282-321). -/
structure ListConnectionsRawInput where
  isActive : Option Bool := none
  type : Option String := none
  source : Option String := none
  authStatus : Option String := none
  limit : Option Int := none
  offset : Option Int := none
  sortBy : Option String := none
  sortOrder : Option String := none
deriving DecidableEq, Repr

/-- Input of the `alfred_list_connections` handler after zod parsing. -/
structure ListConnectionsParsedInput where
  isActive : Option Bool := none
  type : Option String := none
  source : Option String := none
  authStatus : Option String := none
  limit : Int
  offset : Int
  sortBy : Option String := none
  sortOrder : Option String := none
deriving DecidableEq, Repr

/-- Zod defaulting step of `ListConnectionsInputSchema`. -/
def parseListConnectionsInput (r : ListConnectionsRawInput) :
    ListConnectionsParsedInput :=
  { isActive := r.isActive
    type := r.type
    source := r.source
    authStatus := r.authStatus
    limit := r.limit.getD 50
    offset := r.offset.getD 0
    sortBy := r.sortBy
    sortOrder := r.sortOrder }

/-- The params object the `alfred_list_connections` handler passes to
`client.listConnections` (connections.ts lines 347-356). -/
def listConnectionsCallParams (input : ListConnectionsParsedInput) :
    ListConnectionsParams :=
  { isActive := input.isActive
    type := input.type
    source := input.source
    authStatus := input.authStatus
    limit := some (jsOrInt input.limit 50)
    offset := some (jsOrInt input.offset 0)
    sortBy := input.sortBy
    sortOrder := input.sortOrder }

/-- Caller input of `alfred_list_executions` before zod parsing
(executions.ts lines 24-36). -/
structure ListExecutionsRawInput where
  skillId : Option String := none
  status : Option String := none
  trigger : Option String := none
  startDate : Option String := none
  endDate : Option String := none
  limit : Option Int := none
  offset : Option Int := none
  sortBy : Option String := none
  sortOrder : Option String := none
deriving DecidableEq, Repr

/-- Input of the `alfred_list_executions` handler after zod parsing. -/
structure ListExecutionsParsedInput where
  skillId : Option String := none
  status : Option String := none
  trigger : Option String := none
  startDate : Option String := none
  endDate : Option String := none
  limit : Int
  offset : Int
  sortBy : Option String := none
  sortOrder : Option String := none
deriving DecidableEq, Repr

/-- Zod defaulting step of the `alfred_list_executions` input schema:
`limit` has `.default(50)`, `offset` has `.default(0)`. -/
def parseListExecutionsInput (r : ListExecutionsRawInput) :
    ListExecutionsParsedInput :=
  { skillId := r.skillId
    status := r.status
    trigger := r.trigger
    startDate := r.startDate
    endDate := r.endDate
    limit := r.limit.getD 50
    offset := r.offset.getD 0
    sortBy := r.sortBy
    sortOrder := r.sortOrder }

/-- The params object the `alfred_list_executions` handler passes to
`client.listExecutions` (executions.ts lines 52-62): every parsed field is
forwarded unchanged. -/
def listExecutionsCallParams (input : ListExecutionsParsedInput) :
    ListExecutionsParams :=
  { skillId := input.skillId
    status := input.status
    trigger := input.trigger
    startDate := input.startDate
    endDate := input.endDate
    limit := some input.limit
    offset := some input.offset
    sortBy := input.sortBy
    sortOrder := input.sortOrder }

/-! ## String occurrence

Substring occurrence, used to state which strings appear in rendered tool
texts and error messages. -/

/-- The string `s` occurs (contiguously) inside `t`. -/
def Occurs (s t : String) : Prop :=
  ∃ a b : String, a ++ s ++ b = t

/-- Boolean check that `s` is an initial segment of `t` (on character
lists). -/
def listPref : List Char → List Char → Bool
  | [], _ => true
  | _ :: _, [] => false
  | a :: as, b :: bs => a == b && listPref as bs

/-- Boolean occurrence check on character lists. -/
def listOcc (s : List Char) : List Char → Bool
  | [] => listPref s []
  | c :: ts => listPref s (c :: ts) || listOcc s ts

/-- Boolean occurrence check on strings. -/
def occursB (s t : String) : Bool :=
  listOcc s.data t.data

/-! ## Helper lemmas -/

theorem String.mk_data (l : List Char) : (String.mk l).data = l := rfl

theorem strAppend_assoc (a b c : String) : (a ++ b) ++ c = a ++ (b ++ c) :=
  String.ext (by simp [String.data_append])

theorem listPref_iff (s t : List Char) :
    listPref s t = true ↔ ∃ u, s ++ u = t := by
  induction s generalizing t with
  | nil => simp [listPref]
  | cons a as ih =>
    cases t with
    | nil => simp [listPref]
    | cons b bs =>
      simp [listPref, Bool.and_eq_true, beq_iff_eq, ih, List.cons_append,
        List.cons.injEq, exists_and_left]

theorem listOcc_iff (s t : List Char) :
    listOcc s t = true ↔ ∃ a b, a ++ s ++ b = t := by
  induction t with
  | nil =>
    rw [listOcc, listPref_iff]
    constructor
    · rintro ⟨u, h⟩
      exact ⟨[], u, by simpa using h⟩
    · rintro ⟨a, b, h⟩
      rcases List.append_eq_nil.mp h with ⟨h1, h2⟩
      rcases List.append_eq_nil.mp h1 with ⟨rfl, rfl⟩
      exact ⟨b, by simpa using h2⟩
  | cons c ts ih =>
    rw [listOcc, Bool.or_eq_true, listPref_iff, ih]
    constructor
    · rintro (⟨u, h⟩ | ⟨a, b, h⟩)
      · exact ⟨[], u, by simpa using h⟩
      · exact ⟨c :: a, b, by simp [List.cons_append, h]⟩
    · rintro ⟨a, b, h⟩
      cases a with
      | nil => exact Or.inl ⟨b, by simpa using h⟩
      | cons x xs =>
        simp only [List.cons_append] at h
        injection h with h1 h2
        exact Or.inr ⟨xs, b, h2⟩

theorem occursB_iff (s t : String) : occursB s t = true ↔ Occurs s t := by
  rw [occursB, listOcc_iff]
  constructor
  · rintro ⟨la, lb, h⟩
    refine ⟨String.mk la, String.mk lb, String.ext ?_⟩
    rw [String.data_append, String.data_append, String.mk_data, String.mk_data, h]
  · rintro ⟨a, b, h⟩
    exact ⟨a.data, b.data, by rw [← String.data_append, ← String.data_append, h]⟩

theorem occurs_append_right {s t : String} (u : String) (h : Occurs s t) :
    Occurs s (t ++ u) := by
  rcases h with ⟨a, b, rfl⟩
  exact ⟨a, b ++ u, by rw [← strAppend_assoc]⟩

theorem occurs_append_left {s t : String} (u : String) (h : Occurs s t) :
    Occurs s (u ++ t) := by
  rcases h with ⟨a, b, rfl⟩
  exact ⟨u ++ a, b, String.ext (by simp [String.data_append])⟩

theorem occurs_mid (a s b : String) : Occurs s (a ++ s ++ b) :=
  ⟨a, b, rfl⟩

theorem occurs_refl (s : String) : Occurs s s :=
  ⟨"", "", String.ext (by simp [String.data_append])⟩

theorem mem_buildQueryParams (es : List (String × Option String))
    (k v : String) :
    (k, v) ∈ buildQueryParams es ↔ (k, some v) ∈ es := by
  constructor
  · intro h
    rcases List.mem_filterMap.mp h with ⟨e, hmem, heq⟩
    rcases Option.map_eq_some'.mp heq with ⟨a, ha, hpair⟩
    cases hpair
    rw [← ha]
    exact hmem
  · intro h
    exact List.mem_filterMap.mpr ⟨(k, some v), h, rfl⟩

theorem mem_patchEntry (key : String) (o : Option α) (f : α → PatchVal)
    (k : String) (v : PatchVal) :
    (k, v) ∈ patchEntry key o f ↔ ∃ a, o = some a ∧ k = key ∧ v = f a := by
  cases o <;> simp [patchEntry, Prod.mk.injEq]

/-- A tool call outcome is surfaced as a structured result: the registered
handler resolves (never rejects) with a result carrying exactly one content
item. -/
def structuredResult (r : Except JsError ToolResult) : Prop :=
  ∃ t, r = .ok t ∧ t.content.length = 1

theorem structuredResult_runTool {body : Except JsError ToolResult}
    {catcher : JsError → ToolResult}
    (hbody : ∀ t, body = .ok t → t.content.length = 1)
    (hcatch : ∀ e, (catcher e).content.length = 1) :
    structuredResult (runTool body catcher) := by
  cases hb : body with
  | ok r => exact ⟨r, by simp [runTool, hb], hbody r hb⟩
  | error e => exact ⟨catcher e, by simp [runTool, hb], hcatch e⟩

theorem empty_data : ("" : String).data = [] := rfl

theorem occurs_empty (t : String) : Occurs "" t :=
  ⟨"", t, String.ext (by simp [String.data_append, empty_data])⟩

/-! ## Claim theorems -/

/-- C1: on a 2xx response the client's `request` returns the parsed JSON
envelope unchanged, including envelopes with `success: false`; the
`alfred_list_skills` handler then surfaces such an envelope as a structured
failure payload whose error field contains the envelope's error string, and
no exception is thrown (the handler resolves with `.ok`). -/
theorem c1_envelope_passthrough (cfg : AlfredClientConfig) (arrival : Nat)
    (resp : HttpResponse (List Skill)) (env : AlfredApiResponse (List Skill))
    (harr : arrival ≤ cfg.timeout) (hbody : resp.body = .ok env)
    (hok : resp.ok = true) :
    AlfredClient.requestResult cfg (.response arrival resp) = .ok env
    ∧ (env.success = false →
        alfred_list_skills (.ok env) =
          .ok (envFailResult "Failed to list skills" env.error))
    ∧ (env.success = false → ∀ s, env.error = some s →
        Occurs s (jsOrStr env.error "Failed to list skills")) := by
  refine ⟨?_, ?_, ?_⟩
  · simp [AlfredClient.requestResult, fetchResult, harr, hbody, hok]
  · intro hs
    simp [alfred_list_skills, runTool, hs]
  · intro hs s hserr
    rw [hserr]
    by_cases hempty : s = ""
    · subst hempty
      exact occurs_empty _
    · simp only [jsOrStr, if_neg hempty]
      exact occurs_refl s

/-- Concrete envelope for the C1 witness: HTTP 200 carrying
`{success: false, error: "not found"}`. -/
def envC1 : AlfredApiResponse (List Skill) :=
  { success := false, error := some "not found" }

/-- Concrete 2xx response for the C1 witness. -/
def respC1 : HttpResponse (List Skill) :=
  { status := 200, statusText := "OK", body := .ok envC1 }

/-- Witness for C1 at a concrete input: a 200 response with
`{success: false, error: "not found"}` passes through `request` unchanged
and surfaces as a failure payload containing "not found". -/
theorem c1_envelope_passthrough_witness :
    AlfredClient.requestResult ⟨"k", "http://localhost:3001/api/v1", 30000⟩
      (.response 0 respC1) = .ok envC1
    ∧ alfred_list_skills (.ok envC1) =
        .ok (envFailResult "Failed to list skills" envC1.error)
    ∧ Occurs "not found" (jsOrStr envC1.error "Failed to list skills") := by
  have h := c1_envelope_passthrough ⟨"k", "http://localhost:3001/api/v1", 30000⟩
    0 respC1 envC1 (by decide) rfl rfl
  exact ⟨h.1, h.2.1 rfl, h.2.2 rfl "not found" rfl⟩

/-- C2 (amended): on a non-2xx response whose body parses as the JSON
envelope, `request` fails with an `Error` whose message is, in priority
order, the envelope's error field if present and non-empty, else its
message field if present and non-empty, else the synthesized
`"HTTP <status>: <statusText>"` (JS `||` also skips present-but-empty
fields). -/
theorem c2_non2xx_error_priority (T : Type) (cfg : AlfredClientConfig)
    (arrival : Nat) (resp : HttpResponse T) (env : AlfredApiResponse T)
    (harr : arrival ≤ cfg.timeout) (hbody : resp.body = .ok env)
    (hok : resp.ok = false) :
    (∀ s, env.error = some s → s ≠ "" →
      AlfredClient.requestResult cfg (.response arrival resp) =
        .error (.error s))
    ∧ ((env.error = none ∨ env.error = some "") →
       ∀ m, env.message = some m → m ≠ "" →
      AlfredClient.requestResult cfg (.response arrival resp) =
        .error (.error m))
    ∧ ((env.error = none ∨ env.error = some "") →
       (env.message = none ∨ env.message = some "") →
      AlfredClient.requestResult cfg (.response arrival resp) =
        .error (.error
          ("HTTP " ++ toString resp.status ++ ": " ++ resp.statusText))) := by
  have key : AlfredClient.requestResult cfg (.response arrival resp) =
      .error (.error (jsOrStr env.error (jsOrStr env.message
        ("HTTP " ++ toString resp.status ++ ": " ++ resp.statusText)))) := by
    simp [AlfredClient.requestResult, fetchResult, harr, hbody, hok, JsError.name]
  refine ⟨?_, ?_, ?_⟩
  · intro s hs hne
    rw [key, hs]
    simp [jsOrStr, hne]
  · rintro (he | he) m hm hne <;> rw [key, he, hm] <;> simp [jsOrStr, hne]
  · rintro (he | he) (hm | hm) <;> rw [key, he, hm] <;> simp [jsOrStr]

/-- Concrete non-2xx response refuting C2 as stated: the envelope's error
field is present (the empty string) but the produced message is the
message field. -/
def respC2 : HttpResponse Unit :=
  { status := 404, statusText := "Not Found",
    body := .ok { success := false, error := some "", message := some "m" } }

/-- Counterexample to C2 as stated: with `{error: "", message: "m"}` on a
404 response, the envelope's error field is present, yet `request` fails
with message `"m"` (not the present error field's value `""`), because JS
`||` treats the empty string as falsy. -/
theorem c2_error_field_present_but_skipped :
    AlfredClient.requestResult ⟨"k", "http://localhost:3001/api/v1", 30000⟩
      (.response 0 respC2) = .error (.error "m")
    ∧ respC2.body =
        .ok { success := false, error := some "", message := some "m" }
    ∧ "m" ≠ ("" : String) := by
  exact ⟨rfl, rfl, by decide⟩

/-- Concrete envelope for the C2 witness. -/
def envC2w : AlfredApiResponse Unit :=
  { success := false, error := some "boom" }

/-- Concrete 500 response for the C2 witness. -/
def respC2w : HttpResponse Unit :=
  { status := 500, statusText := "Internal Server Error", body := .ok envC2w }

/-- Witness for C2 (amended) at a concrete input: a non-empty error field
on a 500 response becomes the thrown message. -/
theorem c2_non2xx_error_priority_witness :
    AlfredClient.requestResult ⟨"k", "http://localhost:3001/api/v1", 30000⟩
      (.response 0 respC2w) = .error (.error "boom") := by
  exact (c2_non2xx_error_priority Unit
    ⟨"k", "http://localhost:3001/api/v1", 30000⟩ 0 respC2w envC2w
    (by decide) rfl rfl).1 "boom" rfl (by decide)

/-- The call-level predicate "no response arrives within `t` milliseconds":
the endpoint either never responds or responds only after the deadline.
(A network-level failure settles the call before the deadline in this
model and is not a timeout.) -/
def noResponseWithin (t : Nat) : FetchEvent T → Prop
  | .response arrival _ => t < arrival
  | .netError _ => False
  | .never => True

/-- C3: whenever no response arrives within the configured `timeout`, the
abort timer fires (cancelling the in-flight fetch, so no dangling call) and
the call fails with the timeout `Error` whose message carries the
configured duration. -/
theorem c3_timeout (T : Type) (cfg : AlfredClientConfig) (ev : FetchEvent T)
    (h : noResponseWithin cfg.timeout ev) :
    AlfredClient.requestResult cfg ev =
      .error (.error ("Request timeout after " ++ toString cfg.timeout ++ "ms"))
    ∧ abortFired cfg.timeout ev = true
    ∧ Occurs (toString cfg.timeout)
        ("Request timeout after " ++ toString cfg.timeout ++ "ms") := by
  refine ⟨?_, ?_, occurs_mid _ _ _⟩
  · cases ev with
    | response arrival resp =>
      have h2 : cfg.timeout < arrival := h
      have hle : ¬ (arrival ≤ cfg.timeout) := by omega
      simp [AlfredClient.requestResult, fetchResult, hle, JsError.name]
    | netError m => exact h.elim
    | never => simp [AlfredClient.requestResult, fetchResult, JsError.name]
  · cases ev with
    | response arrival resp =>
      have h2 : cfg.timeout < arrival := h
      simpa [abortFired] using h2
    | netError m => exact h.elim
    | never => rfl

/-- Witness for C3: `timeout = 1` against an endpoint that never responds
yields the timeout failure and the fetch was aborted. -/
theorem c3_timeout_witness :
    AlfredClient.requestResult (T := Unit)
      ⟨"k", "http://localhost:3001/api/v1", 1⟩ FetchEvent.never =
      .error (.error ("Request timeout after " ++ toString (1 : Nat) ++ "ms"))
    ∧ abortFired (T := Unit) 1 FetchEvent.never = true
    ∧ Occurs (toString (1 : Nat))
        ("Request timeout after " ++ toString (1 : Nat) ++ "ms") :=
  c3_timeout Unit ⟨"k", "http://localhost:3001/api/v1", 1⟩ FetchEvent.never
    trivial

/-- Counterexample to C7 as stated: a request with no body still carries
the JSON content-type header, so the header is not attached "exactly when
the body is non-empty". -/
theorem c7_content_type_without_body :
    (AlfredClient.request (B := Unit) (T := Unit)
      ⟨"k", "http://localhost:3001/api/v1", 30000⟩ "GET" "/skills" none
      FetchEvent.never).1.body = none
    ∧ ("Content-Type", "application/json") ∈
        (AlfredClient.request (B := Unit) (T := Unit)
          ⟨"k", "http://localhost:3001/api/v1", 30000⟩ "GET" "/skills" none
          FetchEvent.never).1.headers := by
  exact ⟨rfl, by simp [AlfredClient.request, AlfredClient.requestHeaders]⟩

/-- C7 (amended): every outbound request carries the API-key header and the
JSON content-type header, unconditionally (the headers object is fixed);
the body is included exactly when the caller passed one. -/
theorem c7_headers_always (B T : Type) (cfg : AlfredClientConfig)
    (method path : String) (body : Option B) (ev : FetchEvent T) :
    ("X-API-Key", cfg.apiKey) ∈
        (AlfredClient.request cfg method path body ev).1.headers
    ∧ ("Content-Type", "application/json") ∈
        (AlfredClient.request cfg method path body ev).1.headers
    ∧ (AlfredClient.request cfg method path body ev).1.body = body := by
  refine ⟨?_, ?_, rfl⟩ <;> simp [AlfredClient.request, AlfredClient.requestHeaders]

/-- C10 (amended): `request` parses the response body as JSON before
inspecting the HTTP status, so a non-2xx response with an invalid JSON body
fails with the JSON parsing error; the synthesized
`"HTTP <status>: <statusText>"` message is produced when the body parses
but the envelope carries neither a non-empty error nor a non-empty message
field (JS `||` also skips present-but-empty fields). -/
theorem c10_parse_before_status (T : Type) (cfg : AlfredClientConfig)
    (arrival : Nat) (resp : HttpResponse T)
    (harr : arrival ≤ cfg.timeout) (hok : resp.ok = false) :
    (∀ parseMsg, resp.body = .error parseMsg →
      AlfredClient.requestResult cfg (.response arrival resp) =
        .error (.syntaxError parseMsg))
    ∧ (∀ env : AlfredApiResponse T, resp.body = .ok env →
        (env.error = none ∨ env.error = some "") →
        (env.message = none ∨ env.message = some "") →
      AlfredClient.requestResult cfg (.response arrival resp) =
        .error (.error
          ("HTTP " ++ toString resp.status ++ ": " ++ resp.statusText))) := by
  constructor
  · intro parseMsg hbody
    simp [AlfredClient.requestResult, fetchResult, harr, hbody, JsError.name]
  · intro env hbody he hm
    exact (c2_non2xx_error_priority T cfg arrival resp env harr hbody hok).2.2 he hm

/-- C4: for both patch tools, the outbound update payload contains exactly
the caller-supplied fields with their supplied values and no others; in
particular patching only `name` produces the one-field payload
`{name}` (no `steps`, `isActive`, or any omitted field). -/
theorem c4_patch_payload_exact :
    (∀ (p : PatchSkillInput) (k : String) (v : PatchVal),
      ((k, v) ∈ patchSkillPayload p ↔
        (∃ s, p.name = some s ∧ k = "name" ∧ v = .str s) ∨
        (∃ s, p.description = some s ∧ k = "description" ∧ v = .str s) ∨
        (∃ s, p.triggerType = some s ∧ k = "triggerType" ∧ v = .str s) ∨
        (∃ l, p.steps = some l ∧ k = "steps" ∧ v = .steps l) ∨
        (∃ l, p.connectionNames = some l ∧ k = "connectionNames" ∧ v = .names l) ∨
        (∃ b, p.isActive = some b ∧ k = "isActive" ∧ v = .bool b)))
    ∧ (∀ (p : PatchConnectionInput) (k : String) (v : PatchVal),
      ((k, v) ∈ patchConnectionPayload p ↔
        (∃ s, p.name = some s ∧ k = "name" ∧ v = .str s) ∨
        (∃ s, p.type = some s ∧ k = "type" ∧ v = .str s) ∨
        (∃ c, p.config = some c ∧ k = "config" ∧ v = .config c) ∨
        (∃ b, p.isActive = some b ∧ k = "isActive" ∧ v = .bool b)))
    ∧ (∀ (p : PatchSkillInput) (n : String),
        p.name = some n → p.description = none → p.triggerType = none →
        p.steps = none → p.connectionNames = none → p.isActive = none →
        patchSkillPayload p = [("name", .str n)])
    ∧ (∀ (q : PatchConnectionInput) (n : String),
        q.name = some n → q.type = none → q.config = none → q.isActive = none →
        patchConnectionPayload q = [("name", .str n)]) := by
  refine ⟨?_, ?_, ?_, ?_⟩
  · intro p k v
    simp [patchSkillPayload, List.mem_append, mem_patchEntry]
  · intro p k v
    simp [patchConnectionPayload, List.mem_append, mem_patchEntry]
  · intro p n h1 h2 h3 h4 h5 h6
    simp [patchSkillPayload, patchEntry, h1, h2, h3, h4, h5, h6]
  · intro q n h1 h2 h3 h4
    simp [patchConnectionPayload, patchEntry, h1, h2, h3, h4]

/-- Witness for C4: patching only `name` on a skill and on a connection
yields a payload holding exactly that one field. -/
theorem c4_patch_payload_exact_witness :
    patchSkillPayload { skillId := "s1", name := some "renamed" } =
      [("name", .str "renamed")]
    ∧ patchConnectionPayload { connectionId := "c1", name := some "renamed" } =
      [("name", .str "renamed")] :=
  ⟨c4_patch_payload_exact.2.2.1 _ "renamed" rfl rfl rfl rfl rfl rfl,
   c4_patch_payload_exact.2.2.2 _ "renamed" rfl rfl rfl rfl⟩

/-- C5: for each list-style client operation, the query contains one
parameter, string-converted, for each defined filter field, and no
parameter for any undefined field. -/
theorem c5_query_params_exact :
    (∀ (p : ListSkillsParams) (k v : String),
      ((k, v) ∈ listSkillsQueryParams p ↔
        (k = "isActive" ∧ some v = p.isActive.map jsBoolStr) ∨
        (k = "triggerType" ∧ some v = p.triggerType) ∨
        (k = "isSystem" ∧ some v = p.isSystem.map jsBoolStr) ∨
        (k = "limit" ∧ some v = p.limit.map jsIntStr) ∨
        (k = "offset" ∧ some v = p.offset.map jsIntStr) ∨
        (k = "sortBy" ∧ some v = p.sortBy) ∨
        (k = "sortOrder" ∧ some v = p.sortOrder)))
    ∧ (∀ (p : ListConnectionsParams) (k v : String),
      ((k, v) ∈ listConnectionsQueryParams p ↔
        (k = "isActive" ∧ some v = p.isActive.map jsBoolStr) ∨
        (k = "type" ∧ some v = p.type) ∨
        (k = "source" ∧ some v = p.source) ∨
        (k = "authStatus" ∧ some v = p.authStatus) ∨
        (k = "limit" ∧ some v = p.limit.map jsIntStr) ∨
        (k = "offset" ∧ some v = p.offset.map jsIntStr) ∨
        (k = "sortBy" ∧ some v = p.sortBy) ∨
        (k = "sortOrder" ∧ some v = p.sortOrder)))
    ∧ (∀ (p : ListExecutionsParams) (k v : String),
      ((k, v) ∈ listExecutionsQueryParams p ↔
        (k = "skillId" ∧ some v = p.skillId) ∨
        (k = "status" ∧ some v = p.status) ∨
        (k = "trigger" ∧ some v = p.trigger) ∨
        (k = "startDate" ∧ some v = p.startDate) ∨
        (k = "endDate" ∧ some v = p.endDate) ∨
        (k = "limit" ∧ some v = p.limit.map jsIntStr) ∨
        (k = "offset" ∧ some v = p.offset.map jsIntStr) ∨
        (k = "sortBy" ∧ some v = p.sortBy) ∨
        (k = "sortOrder" ∧ some v = p.sortOrder)))
    ∧ (∀ (p : GetExecutionStatsParams) (k v : String),
      ((k, v) ∈ getExecutionStatsQueryParams p ↔
        (k = "startDate" ∧ some v = p.startDate) ∨
        (k = "endDate" ∧ some v = p.endDate) ∨
        (k = "skillId" ∧ some v = p.skillId))) := by
  refine ⟨?_, ?_, ?_, ?_⟩ <;> intro p k v
  · rw [listSkillsQueryParams, mem_buildQueryParams]
    simp [ListSkillsParams.entries, Prod.mk.injEq]
  · rw [listConnectionsQueryParams, mem_buildQueryParams]
    simp [ListConnectionsParams.entries, Prod.mk.injEq]
  · rw [listExecutionsQueryParams, mem_buildQueryParams]
    simp [ListExecutionsParams.entries, Prod.mk.injEq]
  · rw [getExecutionStatsQueryParams, mem_buildQueryParams]
    simp [GetExecutionStatsParams.entries, Prod.mk.injEq]

/-- C6: when the caller omits `limit` and `offset` on any of the three list
tools, the outbound request carries `limit=50` and `offset=0` as query
parameters (the zod `.default` fills the values and the handlers forward
them). -/
theorem c6_list_defaults (rs : ListSkillsRawInput) (rc : ListConnectionsRawInput)
    (re : ListExecutionsRawInput)
    (h1 : rs.limit = none) (h2 : rs.offset = none)
    (h3 : rc.limit = none) (h4 : rc.offset = none)
    (h5 : re.limit = none) (h6 : re.offset = none) :
    (("limit", "50") ∈
        listSkillsQueryParams (listSkillsCallParams (parseListSkillsInput rs))
     ∧ ("offset", "0") ∈
        listSkillsQueryParams (listSkillsCallParams (parseListSkillsInput rs)))
    ∧ (("limit", "50") ∈ listConnectionsQueryParams
          (listConnectionsCallParams (parseListConnectionsInput rc))
     ∧ ("offset", "0") ∈ listConnectionsQueryParams
          (listConnectionsCallParams (parseListConnectionsInput rc)))
    ∧ (("limit", "50") ∈ listExecutionsQueryParams
          (listExecutionsCallParams (parseListExecutionsInput re))
     ∧ ("offset", "0") ∈ listExecutionsQueryParams
          (listExecutionsCallParams (parseListExecutionsInput re))) := by
  have e50 : jsIntStr (50 : Int) = "50" := rfl
  have e0 : jsIntStr (0 : Int) = "0" := rfl
  refine ⟨⟨?_, ?_⟩, ⟨?_, ?_⟩, ⟨?_, ?_⟩⟩ <;>
    simp [listSkillsQueryParams, listConnectionsQueryParams,
      listExecutionsQueryParams, mem_buildQueryParams,
      ListSkillsParams.entries, ListConnectionsParams.entries,
      ListExecutionsParams.entries, listSkillsCallParams,
      listConnectionsCallParams, listExecutionsCallParams,
      parseListSkillsInput, parseListConnectionsInput, parseListExecutionsInput,
      h1, h2, h3, h4, h5, h6, jsOrInt, e50, e0]

/-- Witness for C6: with every input field omitted, all three list tools
put `limit=50` and `offset=0` in the query. -/
theorem c6_list_defaults_witness :
    ("limit", "50") ∈
        listSkillsQueryParams (listSkillsCallParams (parseListSkillsInput {}))
    ∧ ("offset", "0") ∈
        listSkillsQueryParams (listSkillsCallParams (parseListSkillsInput {}))
    ∧ ("limit", "50") ∈ listConnectionsQueryParams
        (listConnectionsCallParams (parseListConnectionsInput {}))
    ∧ ("offset", "0") ∈ listConnectionsQueryParams
        (listConnectionsCallParams (parseListConnectionsInput {}))
    ∧ ("limit", "50") ∈ listExecutionsQueryParams
        (listExecutionsCallParams (parseListExecutionsInput {}))
    ∧ ("offset", "0") ∈ listExecutionsQueryParams
        (listExecutionsCallParams (parseListExecutionsInput {})) := by
  have h := c6_list_defaults {} {} {} rfl rfl rfl rfl rfl rfl
  exact ⟨h.1.1, h.1.2, h.2.1.1, h.2.1.2, h.2.2.1, h.2.2.2⟩

theorem occurs_suffix_self (a s : String) : Occurs s (a ++ s) :=
  ⟨a, "", String.ext (by simp [String.data_append, empty_data])⟩

/-- Concrete creation response A for the C8 scenario (two creations, then
one list). -/
def apiKeyCreateRespA : CreateApiKeyResponse :=
  { id := "key-A", key := "alf_secretAAAA1111", name := "ci-A",
    keyPrefix := "alf_se", isActive := true,
    createdAt := "2026-01-01T00:00:00Z" }

/-- Concrete creation response B for the C8 scenario. -/
def apiKeyCreateRespB : CreateApiKeyResponse :=
  { id := "key-B", key := "alf_secretBBBB2222", name := "ci-B",
    keyPrefix := "alf_se", isActive := true,
    createdAt := "2026-01-02T00:00:00Z" }

/-- Non-secret metadata of key A, as the list endpoint returns it. -/
def apiKeyMetaA : ApiKey :=
  { id := "key-A", name := "ci-A", keyPrefix := "alf_se", isActive := true,
    createdAt := "2026-01-01T00:00:00Z", updatedAt := "2026-01-01T00:00:00Z" }

/-- Non-secret metadata of key B. -/
def apiKeyMetaB : ApiKey :=
  { id := "key-B", name := "ci-B", keyPrefix := "alf_se", isActive := true,
    createdAt := "2026-01-02T00:00:00Z", updatedAt := "2026-01-02T00:00:00Z" }

/-- C8: every successful `alfred_create_api_key` result text contains the
full secret key together with the one-time-display warning; the
`alfred_list_api_keys` result text is rendered from the non-secret `ApiKey`
metadata only (its type has no secret field), and on the concrete
two-creations-then-list scenario neither secret occurs anywhere in the
list result text. -/
theorem c8_secret_exposure :
    (∀ r : CreateApiKeyResponse,
      Occurs "WARNING: This is the only time the API key will be displayed. Save it securely immediately."
        (createApiKeyText r)
      ∧ Occurs r.key (createApiKeyText r))
    ∧ (alfred_create_api_key (.ok { success := true, data := some apiKeyCreateRespA }) =
        .ok { content := [.text (createApiKeyText apiKeyCreateRespA)] })
    ∧ (alfred_create_api_key (.ok { success := true, data := some apiKeyCreateRespB }) =
        .ok { content := [.text (createApiKeyText apiKeyCreateRespB)] })
    ∧ (alfred_list_api_keys
        (.ok { success := true, data := some [apiKeyMetaA, apiKeyMetaB] }) =
        .ok { content := [.text (listApiKeysText [apiKeyMetaA, apiKeyMetaB])] })
    ∧ Occurs apiKeyCreateRespA.key (createApiKeyText apiKeyCreateRespA)
    ∧ Occurs apiKeyCreateRespB.key (createApiKeyText apiKeyCreateRespB)
    ∧ ¬ Occurs apiKeyCreateRespA.key (listApiKeysText [apiKeyMetaA, apiKeyMetaB])
    ∧ ¬ Occurs apiKeyCreateRespB.key (listApiKeysText [apiKeyMetaA, apiKeyMetaB]) := by
  have hA : occursB apiKeyCreateRespA.key
      (listApiKeysText [apiKeyMetaA, apiKeyMetaB]) = false := by
    set_option maxRecDepth 8000 in rfl
  have hB : occursB apiKeyCreateRespB.key
      (listApiKeysText [apiKeyMetaA, apiKeyMetaB]) = false := by
    set_option maxRecDepth 8000 in rfl
  have hall : ∀ r : CreateApiKeyResponse,
      Occurs "WARNING: This is the only time the API key will be displayed. Save it securely immediately."
        (createApiKeyText r)
      ∧ Occurs r.key (createApiKeyText r) := by
    intro r
    constructor
    · unfold createApiKeyText
      exact occurs_append_right _ (occurs_append_right _ (occurs_append_right _
        (occurs_append_right _ (occurs_append_right _ (occurs_append_right _
        (occurs_append_right _ (occurs_append_right _ (occurs_append_right _
        (occurs_append_right _ (occurs_append_right _ (occurs_append_right _
        (occurs_append_right _ (occurs_append_right _ (occurs_append_right _
        (occurs_append_right _
          ⟨"API Key Created Successfully\n\n",
           "\n\nKey Details:\n- ID: ", rfl⟩)))))))))))))))
    · unfold createApiKeyText
      exact occurs_append_right _ (occurs_append_right _ (occurs_append_right _
        (occurs_append_right _ (occurs_append_right _ (occurs_append_right _
        (occurs_append_right _ (occurs_append_right _ (occurs_append_right _
        (occurs_append_right _ (occurs_append_right _
          (occurs_suffix_self _ _)))))))))))
  refine ⟨hall, rfl, rfl, rfl, (hall apiKeyCreateRespA).2, (hall apiKeyCreateRespB).2,
    ?_, ?_⟩
  · intro h
    have := (occursB_iff _ _).mpr h
    rw [hA] at this
    exact Bool.false_ne_true this
  · intro h
    have := (occursB_iff _ _).mpr h
    rw [hB] at this
    exact Bool.false_ne_true this

/-- C9: for every registered tool and every outcome of its single client
call (success envelope, failure envelope, or thrown Timeout / Network / Api
error), the registered handler resolves with a structured one-item result
and never lets an exception propagate to the MCP runtime. -/
theorem c9_tools_never_throw :
    (∀ o, structuredResult (alfred_list_skills o))
    ∧ (∀ o, structuredResult (alfred_get_skill o))
    ∧ (∀ name o, structuredResult (alfred_create_skill name o))
    ∧ (∀ o, structuredResult (alfred_update_skill o))
    ∧ (∀ o, structuredResult (alfred_patch_skill o))
    ∧ (∀ o, structuredResult (alfred_delete_skill o))
    ∧ (∀ o, structuredResult (alfred_list_connections o))
    ∧ (∀ o, structuredResult (alfred_get_connection o))
    ∧ (∀ name o, structuredResult (alfred_create_connection name o))
    ∧ (∀ o, structuredResult (alfred_update_connection o))
    ∧ (∀ o, structuredResult (alfred_patch_connection o))
    ∧ (∀ o, structuredResult (alfred_delete_connection o))
    ∧ (∀ o, structuredResult (alfred_list_executions o))
    ∧ (∀ o, structuredResult (alfred_get_execution o))
    ∧ (∀ executionId o, structuredResult (alfred_get_execution_trace executionId o))
    ∧ (∀ o, structuredResult (alfred_get_execution_stats o))
    ∧ (∀ executionId o, structuredResult (alfred_delete_execution executionId o))
    ∧ (∀ o, structuredResult (alfred_create_api_key o))
    ∧ (∀ o, structuredResult (alfred_list_api_keys o))
    ∧ (∀ o, structuredResult (alfred_delete_api_key o)) := by
  have step : ∀ {T : Type} (body : Except JsError (AlfredApiResponse T) →
        Except JsError ToolResult)
      (catcher : JsError → ToolResult),
      (∀ r t, body (.ok r) = .ok t → t.content.length = 1) →
      (∀ e t, body (.error e) = .ok t → t.content.length = 1) →
      (∀ e, (catcher e).content.length = 1) →
      ∀ o, structuredResult (runTool (body o) catcher) := by
    intro T body catcher hok herr hcatch o
    refine structuredResult_runTool ?_ hcatch
    intro t ht
    cases o with
    | ok r => exact hok r t ht
    | error e => exact herr e t ht
  refine ⟨?_, ?_, ?_, ?_, ?_, ?_, ?_, ?_, ?_, ?_, ?_, ?_, ?_, ?_, ?_, ?_, ?_,
    ?_, ?_, ?_⟩
  case _ =>
    exact step _ _
      (by intro r t ht; revert ht; dsimp only; split <;> (intro ht; cases ht; rfl))
      (by intro e t ht; exact absurd ht (by simp))
      (fun e => rfl)
  case _ =>
    exact step _ _
      (by intro r t ht; revert ht; dsimp only; split <;> (intro ht; cases ht; rfl))
      (by intro e t ht; exact absurd ht (by simp))
      (fun e => rfl)
  case _ =>
    intro name
    exact step _ _
      (by intro r t ht; revert ht; dsimp only; split <;> (intro ht; cases ht; rfl))
      (by intro e t ht; exact absurd ht (by simp))
      (fun e => rfl)
  case _ =>
    exact step _ _
      (by intro r t ht; revert ht; dsimp only; split <;> (intro ht; cases ht; rfl))
      (by intro e t ht; exact absurd ht (by simp))
      (fun e => rfl)
  case _ =>
    exact step _ _
      (by intro r t ht; revert ht; dsimp only; split <;> (intro ht; cases ht; rfl))
      (by intro e t ht; exact absurd ht (by simp))
      (fun e => rfl)
  case _ =>
    exact step _ _
      (by intro r t ht; revert ht; dsimp only; split <;> (intro ht; cases ht; rfl))
      (by intro e t ht; exact absurd ht (by simp))
      (fun e => rfl)
  case _ =>
    exact step _ _
      (by intro r t ht; revert ht; dsimp only; split <;> (intro ht; cases ht; rfl))
      (by intro e t ht; exact absurd ht (by simp))
      (fun e => rfl)
  case _ =>
    exact step _ _
      (by intro r t ht; revert ht; dsimp only; split <;> (intro ht; cases ht; rfl))
      (by intro e t ht; exact absurd ht (by simp))
      (fun e => rfl)
  case _ =>
    intro name
    exact step _ _
      (by intro r t ht; revert ht; dsimp only; split <;> (intro ht; cases ht; rfl))
      (by intro e t ht; exact absurd ht (by simp))
      (fun e => rfl)
  case _ =>
    exact step _ _
      (by intro r t ht; revert ht; dsimp only; split <;> (intro ht; cases ht; rfl))
      (by intro e t ht; exact absurd ht (by simp))
      (fun e => rfl)
  case _ =>
    exact step _ _
      (by intro r t ht; revert ht; dsimp only; split <;> (intro ht; cases ht; rfl))
      (by intro e t ht; exact absurd ht (by simp))
      (fun e => rfl)
  case _ =>
    exact step _ _
      (by intro r t ht; revert ht; dsimp only; split <;> (intro ht; cases ht; rfl))
      (by intro e t ht; exact absurd ht (by simp))
      (fun e => rfl)
  case _ =>
    exact step _ _
      (by intro r t ht; revert ht; dsimp only; repeat' split
          all_goals intro ht
          all_goals first | (cases ht; rfl) | exact absurd ht (by simp))
      (by intro e t ht; exact absurd ht (by simp))
      (fun e => rfl)
  case _ =>
    exact step _ _
      (by intro r t ht; revert ht; dsimp only; repeat' split
          all_goals intro ht
          all_goals first | (cases ht; rfl) | exact absurd ht (by simp))
      (by intro e t ht; exact absurd ht (by simp))
      (fun e => rfl)
  case _ =>
    intro executionId
    exact step _ _
      (by intro r t ht; revert ht; dsimp only; split <;> (intro ht; cases ht; rfl))
      (by intro e t ht; exact absurd ht (by simp))
      (fun e => rfl)
  case _ =>
    exact step _ _
      (by intro r t ht; revert ht; dsimp only; repeat' split
          all_goals intro ht
          all_goals first | (cases ht; rfl) | exact absurd ht (by simp))
      (by intro e t ht; exact absurd ht (by simp))
      (fun e => rfl)
  case _ =>
    intro executionId
    exact step _ _
      (by intro r t ht; revert ht; dsimp only; repeat' split
          all_goals intro ht
          all_goals first | (cases ht; rfl) | exact absurd ht (by simp))
      (by intro e t ht; exact absurd ht (by simp))
      (fun e => rfl)
  case _ =>
    exact step _ _
      (by intro r t ht; revert ht; dsimp only; repeat' split
          all_goals intro ht
          all_goals first | (cases ht; rfl) | exact absurd ht (by simp))
      (by intro e t ht; exact absurd ht (by simp))
      (fun e => rfl)
  case _ =>
    exact step _ _
      (by intro r t ht; revert ht; dsimp only; repeat' split
          all_goals intro ht
          all_goals first | (cases ht; rfl) | exact absurd ht (by simp))
      (by intro e t ht; exact absurd ht (by simp))
      (fun e => rfl)
  case _ =>
    exact step _ _
      (by intro r t ht; revert ht; dsimp only; repeat' split
          all_goals intro ht
          all_goals first | (cases ht; rfl) | exact absurd ht (by simp))
      (by intro e t ht; exact absurd ht (by simp))
      (fun e => rfl)

/-- Concrete 500 response refuting C10's "only when" clause: both envelope
fields are present (empty strings). -/
def respC10 : HttpResponse Unit :=
  { status := 500, statusText := "Internal Server Error",
    body := .ok { success := false, error := some "", message := some "" } }

/-- Counterexample to C10 as stated: on a 500 response whose envelope
carries both an `error` and a `message` field (empty strings), `request`
still produces the synthesized `"HTTP 500: Internal Server Error"` message,
so the synthesized message is not produced only when the envelope carries
neither field. -/
theorem c10_synthesized_despite_fields_present :
    AlfredClient.requestResult ⟨"k", "http://localhost:3001/api/v1", 30000⟩
      (.response 0 respC10) =
      .error (.error "HTTP 500: Internal Server Error")
    ∧ respC10.body =
        .ok { success := false, error := some "", message := some "" } :=
  ⟨rfl, rfl⟩

/-- Concrete 500 response with a non-JSON body for the C10 witness. -/
def respC10w : HttpResponse Unit :=
  { status := 500, statusText := "Internal Server Error",
    body := .error "Unexpected token < in JSON" }

/-- Witness for C10 (amended): a non-2xx response with an invalid JSON body
fails with the JSON parsing error, not the synthesized HTTP message. -/
theorem c10_parse_before_status_witness :
    AlfredClient.requestResult ⟨"k", "http://localhost:3001/api/v1", 30000⟩
      (.response 0 respC10w) =
      .error (.syntaxError "Unexpected token < in JSON") :=
  (c10_parse_before_status Unit ⟨"k", "http://localhost:3001/api/v1", 30000⟩
    0 respC10w (by decide) rfl).1 "Unexpected token < in JSON" rfl

/-- Witness for C5 at a concrete input: a defined boolean filter appears
string-converted in the query. -/
theorem c5_query_params_exact_witness :
    ("isActive", "true") ∈ listSkillsQueryParams { isActive := some true } :=
  (c5_query_params_exact.1 { isActive := some true } "isActive" "true").mpr
    (Or.inl ⟨rfl, rfl⟩)
